import Mathlib

/-!
Verification development for the hcibench / axopy experiment-control runtime.

The repository sources under verification are the trial/block Sequence
Iterator, the transmitter/receiver event bus, the tick-counter and
wall-clock countdown timing primitives, the Task controller state machine,
and the time-domain feature transforms (MAV, ZC).  The feature transforms
live in `hcibench/features/time.py`; the iterator, bus, timing and
controller modules are exercised by `tests/test_task.py` and
`tests/test_timing.py` and are modelled here from the specification,
faithful to the behaviour those tests pin down.
-/

/-- A trial is an immutable mapping from attribute name to value
(`{'block': 0, 'trial': 1}` in the tests); modelled as an association
list. -/
abbrev Trial := List (String × Int)

/-- A block is an ordered sequence of trials. -/
abbrev Block := List Trial

/-- A design (schedule) is an ordered sequence of blocks. -/
abbrev Design := List Block

/-- The empty placeholder trial (`{}` in Python). -/
def emptyTrial : Trial := []

/-- Modelled from the spec: the `_TaskIter` sequence iterator of
`axopy.task.base` is not under `src/` (only `tests/test_task.py` exercises
it).  Cursor state per section 3 of the spec: the blocks not yet returned,
and the trials remaining in the block most recently returned by
`next_block`. -/
structure TaskIter where
  blocks : List Block
  trials : List Trial
deriving DecidableEq

/-- Modelled from the spec: constructed from a schedule (possibly empty or
absent).  An empty or absent schedule is replaced by a single synthetic
block holding one placeholder trial, so callers always get some starting
point on the first call; `next_trial` before any `next_block` uses the
implicit empty-trial fallback. -/
def TaskIter.init (design : Option Design) : TaskIter :=
  match design with
  | none => { blocks := [[emptyTrial]], trials := [emptyTrial] }
  | some [] => { blocks := [[emptyTrial]], trials := [emptyTrial] }
  | some d => { blocks := d, trials := [emptyTrial] }

/-- Modelled from the spec: `next_block` returns the next block in the
schedule in order, loading its trials as the current trial source, and a
termination sentinel (`none`) once the schedule is exhausted. -/
def TaskIter.nextBlock (s : TaskIter) : Option Block × TaskIter :=
  match s.blocks with
  | [] => (none, s)
  | b :: rest => (some b, { blocks := rest, trials := b })

/-- Modelled from the spec: `next_trial` returns the next trial of the
block most recently returned by `next_block`, in order, and a termination
sentinel (`none`) once that block's trials are exhausted. -/
def TaskIter.nextTrial (s : TaskIter) : Option Trial × TaskIter :=
  match s.trials with
  | [] => (none, s)
  | t :: rest => (some t, { s with trials := rest })

/-- State after `k` successive `next_block` calls. -/
def TaskIter.applyNBs (s : TaskIter) : Nat → TaskIter
  | 0 => s
  | Nat.succ k => TaskIter.applyNBs (TaskIter.nextBlock s).2 k

/-- Output of the `(k+1)`-st successive `next_block` call. -/
def TaskIter.nthBlockOut (s : TaskIter) (k : Nat) : Option Block :=
  (TaskIter.nextBlock (TaskIter.applyNBs s k)).1

/-- State after `k` successive `next_trial` calls. -/
def TaskIter.applyNTs (s : TaskIter) : Nat → TaskIter
  | 0 => s
  | Nat.succ k => TaskIter.applyNTs (TaskIter.nextTrial s).2 k

/-- Output of the `(k+1)`-st successive `next_trial` call. -/
def TaskIter.nthTrialOut (s : TaskIter) (k : Nat) : Option Trial :=
  (TaskIter.nextTrial (TaskIter.applyNTs s k)).1

/-- One of the two iterator operations, for stating exhaustion stability. -/
inductive IterOp
  | nb
  | nt
deriving DecidableEq

/-- Apply one iterator operation, keeping only the state. -/
def TaskIter.applyOp (s : TaskIter) : IterOp → TaskIter
  | IterOp.nb => (TaskIter.nextBlock s).2
  | IterOp.nt => (TaskIter.nextTrial s).2

/-- Apply a list of iterator operations in order. -/
def TaskIter.applyOps (s : TaskIter) (ops : List IterOp) : TaskIter :=
  ops.foldl TaskIter.applyOp s

theorem TaskIter.nthBlockOut_eq (k : Nat) :
    ∀ (bs : List Block) (ts : List Trial),
      TaskIter.nthBlockOut ⟨bs, ts⟩ k = bs.get? k := by
  induction k with
  | zero =>
    intro bs ts
    cases bs <;> rfl
  | succ k ih =>
    intro bs ts
    cases bs with
    | nil =>
      simpa [TaskIter.nthBlockOut, TaskIter.applyNBs, TaskIter.nextBlock]
        using ih [] ts
    | cons b rest =>
      simpa [TaskIter.nthBlockOut, TaskIter.applyNBs, TaskIter.nextBlock]
        using ih rest b

theorem TaskIter.nthTrialOut_eq (k : Nat) :
    ∀ (ts : List Trial) (bs : List Block),
      TaskIter.nthTrialOut ⟨bs, ts⟩ k = ts.get? k := by
  induction k with
  | zero =>
    intro ts bs
    cases ts <;> rfl
  | succ k ih =>
    intro ts bs
    cases ts with
    | nil =>
      simpa [TaskIter.nthTrialOut, TaskIter.applyNTs, TaskIter.nextTrial]
        using ih [] bs
    | cons t rest =>
      simpa [TaskIter.nthTrialOut, TaskIter.applyNTs, TaskIter.nextTrial]
        using ih rest bs

theorem TaskIter.exhausted_applyOps (ops : List IterOp) :
    TaskIter.applyOps ⟨[], []⟩ ops = (⟨[], []⟩ : TaskIter) := by
  induction ops with
  | nil => rfl
  | cons op rest ih =>
    cases op <;> simpa [TaskIter.applyOps, TaskIter.applyOp,
      TaskIter.nextBlock, TaskIter.nextTrial] using ih

/-- Claim C3: for every non-empty two-level schedule, successive
`next_block()` calls return the schedule's blocks in original order
followed by a persistent sentinel (`List.get? k` is `none` for every
out-of-range `k`, so the sentinel persists on repeated calls);
`next_trial()` calls do not disturb the block cursor; and after any
`next_block()` call that returns a block `b`, successive `next_trial()`
calls return `b`'s trials in original order followed by a persistent
sentinel, until the next `next_block()` call replaces the trial source. -/
theorem taskIter_sequential_order (d : Design) (hd : d ≠ []) :
    (∀ k, TaskIter.nthBlockOut (TaskIter.init (some d)) k = d.get? k) ∧
    (∀ s : TaskIter, ((TaskIter.nextTrial s).2).blocks = s.blocks) ∧
    (∀ (s : TaskIter) (b : Block), (TaskIter.nextBlock s).1 = some b →
      ∀ k, TaskIter.nthTrialOut (TaskIter.nextBlock s).2 k = b.get? k) := by
  refine ⟨?_, ?_, ?_⟩
  · intro k
    have hinit : TaskIter.init (some d) = ⟨d, [emptyTrial]⟩ := by
      cases d with
      | nil => exact absurd rfl hd
      | cons b rest => rfl
    rw [hinit]
    exact TaskIter.nthBlockOut_eq k d [emptyTrial]
  · intro s
    cases s with
    | mk bs ts => cases ts <;> rfl
  · intro s b hb k
    cases s with
    | mk bs ts =>
      cases bs with
      | nil => simp [TaskIter.nextBlock] at hb
      | cons b0 rest =>
        have hb0 : b0 = b := by
          simpa [TaskIter.nextBlock] using hb
        subst hb0
        simpa [TaskIter.nextBlock] using TaskIter.nthTrialOut_eq k b0 rest

/-- Witness for C3 at the concrete two-block schedule of the tests. -/
theorem taskIter_sequential_order_witness :
    ([[[("block", (0 : Int))]], [[("block", (1 : Int))]]] : Design) ≠ [] ∧
    TaskIter.nthBlockOut
      (TaskIter.init (some [[[("block", (0 : Int))]], [[("block", (1 : Int))]]])) 0 =
      some [[("block", (0 : Int))]] ∧
    TaskIter.nthBlockOut
      (TaskIter.init (some [[[("block", (0 : Int))]], [[("block", (1 : Int))]]])) 2 =
      none := by
  refine ⟨by decide, ?_, ?_⟩
  · exact ((taskIter_sequential_order
      [[[("block", (0 : Int))]], [[("block", (1 : Int))]]] (by decide)).1 0).trans rfl
  · exact ((taskIter_sequential_order
      [[[("block", (0 : Int))]], [[("block", (1 : Int))]]] (by decide)).1 2).trans rfl

/-- Claim C4: for a Sequence Iterator constructed from an absent (`none`)
or empty (`some []`) schedule, the first `next_block()` returns the
non-sentinel synthetic block, the first `next_trial()` afterwards returns
the non-sentinel placeholder trial, the state is then fully exhausted, and
from the exhausted state every further `next_block()` / `next_trial()`
call, in any order, returns the sentinel and leaves the state unchanged. -/
theorem taskIter_empty_design :
    ((TaskIter.nextBlock (TaskIter.init none)).1 = some [emptyTrial] ∧
      (TaskIter.nextTrial (TaskIter.nextBlock (TaskIter.init none)).2).1 =
        some emptyTrial ∧
      (TaskIter.nextTrial (TaskIter.nextBlock (TaskIter.init none)).2).2 =
        (⟨[], []⟩ : TaskIter)) ∧
    ((TaskIter.nextBlock (TaskIter.init (some []))).1 = some [emptyTrial] ∧
      (TaskIter.nextTrial (TaskIter.nextBlock (TaskIter.init (some []))).2).1 =
        some emptyTrial ∧
      (TaskIter.nextTrial (TaskIter.nextBlock (TaskIter.init (some []))).2).2 =
        (⟨[], []⟩ : TaskIter)) ∧
    (∀ ops : List IterOp,
      (TaskIter.nextBlock (TaskIter.applyOps ⟨[], []⟩ ops)).1 = none ∧
      (TaskIter.nextTrial (TaskIter.applyOps ⟨[], []⟩ ops)).1 = none ∧
      TaskIter.applyOps ⟨[], []⟩ ops = (⟨[], []⟩ : TaskIter)) := by
  refine ⟨⟨rfl, rfl, rfl⟩, ⟨rfl, rfl, rfl⟩, ?_⟩
  intro ops
  have h := TaskIter.exhausted_applyOps ops
  rw [h]
  exact ⟨rfl, rfl, rfl⟩

/-- Modelled from the spec: the `axopy.messaging` transmitter module is
not under `src/` (only `tests/test_task.py` exercises it).  Per the design
note in section 4.1 of the spec, the class-level `@transmitter()`
declaration yields one shared transmitter object for all instances of the
owner type, holding a single ordered receiver list; `tests/test_task.py`
(`test_task_transmitters`) pins this down: `t1.tx` and `t2.tx` are "the
same underlying transmitter object".  Receivers are identified by the
owner instance that registered them (`1` for `t1.rx`, `2` for `t2.rx`);
each invocation increments the module-global `count` by one. -/
structure TxState where
  receivers : List Nat
  count : Nat
deriving DecidableEq

/-- Modelled from the spec: `connect(receiver)` appends the callable to
the shared transmitter's receiver list, in registration order. -/
def TxState.connect (s : TxState) (r : Nat) : TxState :=
  { s with receivers := s.receivers ++ [r] }

/-- Modelled from the spec: `disconnect(receiver)` removes a previously
registered callable; removing an unregistered one is a silent no-op. -/
def TxState.disconnect (s : TxState) (r : Nat) : TxState :=
  { s with receivers := s.receivers.erase r }

/-- Modelled from the spec: `emit()` synchronously invokes every receiver
currently registered on the shared transmitter object, in registration
order; each invoked counter-incrementing receiver bumps the global count
by one.  Returns the list of invoked receivers alongside the new state. -/
def TxState.emit (s : TxState) : List Nat × TxState :=
  (s.receivers, { s with count := s.count + s.receivers.length })

/-- Claim C1 (evaluated at the failing input of
`test_task_transmitters`): after `t1.tx.connect(t1.rx)`, `t1.tx()`
(count reaches 1), and `t2.tx.connect(t2.rx)`, the emission `t2.tx()`
invokes both receivers — including receiver 1, which was bound only
through the sibling instance `t1` — so the global count reaches 3, as the
repository's own test asserts.  This contradicts the claimed per-instance
isolation. -/
theorem transmitter_cross_instance_leak :
    (TxState.emit (TxState.connect { receivers := [], count := 0 } 1)).2.count = 1 ∧
    (TxState.emit (TxState.connect
      (TxState.emit (TxState.connect { receivers := [], count := 0 } 1)).2 2)).1 =
      [1, 2] ∧
    (TxState.emit (TxState.connect
      (TxState.emit (TxState.connect { receivers := [], count := 0 } 1)).2 2)).2.count =
      3 ∧
    1 ∈ (TxState.emit (TxState.connect
      (TxState.emit (TxState.connect { receivers := [], count := 0 } 1)).2 2)).1 := by
  refine ⟨rfl, rfl, rfl, ?_⟩
  decide

/-- Modelled from the spec: the `axopy.timing.Counter` tick counter is not
under `src/` (only `tests/test_timing.py` exercises it).  Section 4.3 of
the spec describes a counter constructed with a positive numeric
threshold; `tests/test_timing.py` (`test_incremental_timer_float`)
requires `Counter(3.5)` to fire by the 3rd increment, so the effective
threshold is the truncated integer part `maxCount` of the constructor
argument (`int(threshold)` in Python).  `timeoutEmits` counts `timeout`
emissions on the bus. -/
structure Counter where
  maxCount : Nat
  resetOnTimeout : Bool
  count : Nat
  timeoutEmits : Nat
deriving DecidableEq

/-- Truncation of a positive rational to a natural number, as Python's
`int()` does for positive floats. -/
def ratTruncNat (q : Rat) : Nat :=
  (⌊q⌋).toNat

theorem ratTruncNat_sevenHalves : ratTruncNat (7 / 2 : Rat) = 3 := by
  have h : ⌊(7 / 2 : Rat)⌋ = 3 := by
    rw [Int.floor_eq_iff]
    constructor <;> norm_num
  rw [ratTruncNat, h]
  rfl

theorem ratTruncNat_two : ratTruncNat (2 : Rat) = 2 := by
  have h : ⌊(2 : Rat)⌋ = 2 := by
    rw [Int.floor_eq_iff]
    constructor <;> norm_num
  rw [ratTruncNat, h]
  rfl

/-- Modelled from the spec: construction fails with an invalid-argument
error (`ValueError`) for a non-positive threshold; otherwise the counter
starts at count 0 with no emissions. -/
def Counter.make (threshold : Rat) (resetOnTimeout : Bool) :
    Except String Counter :=
  if threshold ≤ 0 then
    Except.error "threshold must be positive"
  else
    Except.ok
      { maxCount := ratTruncNat threshold
        resetOnTimeout := resetOnTimeout
        count := 0
        timeoutEmits := 0 }

/-- Modelled from the spec: `increment()` advances the count by one; when
the count reaches the (truncated) threshold a `timeout` event is emitted
and, unless `reset_on_timeout` is false, the count resets to zero
automatically. -/
def Counter.increment (c : Counter) : Counter :=
  if c.count + 1 ≥ c.maxCount then
    { c with
        count := if c.resetOnTimeout then 0 else c.count + 1
        timeoutEmits := c.timeoutEmits + 1 }
  else
    { c with count := c.count + 1 }

/-- Modelled from the spec: `progress` reports count over threshold as a
fraction. -/
def Counter.progress (c : Counter) : Rat :=
  (c.count : Rat) / (c.maxCount : Rat)

/-- Modelled from the spec: `reset()` forces the count to zero without
emitting. -/
def Counter.reset (c : Counter) : Counter :=
  { c with count := 0 }

/-- `n` successive `increment()` calls. -/
def Counter.incrementN (c : Counter) : Nat → Counter
  | 0 => c
  | Nat.succ k => Counter.incrementN (Counter.increment c) k

/-- Claim C5 counterexample: the claim states that `timeout` is emitted at
the increment on which the count reaches or exceeds the threshold, and
simultaneously that `Counter(3.5)` fires by the 3rd increment.  After two
increments of a fresh `Counter(3.5)` the count is 2; the 3rd increment
emits `timeout` (as `tests/test_timing.py` requires) even though the count
3 has not reached the threshold 3.5 — so the "reaches or exceeds the
threshold" rule is false as stated. -/
theorem counter_threshold_claim_refuted :
    Counter.make (7 / 2 : Rat) true =
      Except.ok { maxCount := 3, resetOnTimeout := true, count := 0, timeoutEmits := 0 } ∧
    (Counter.incrementN
      { maxCount := 3, resetOnTimeout := true, count := 0, timeoutEmits := 0 } 2) =
      { maxCount := 3, resetOnTimeout := true, count := 2, timeoutEmits := 0 } ∧
    (Counter.increment
      { maxCount := 3, resetOnTimeout := true, count := 2, timeoutEmits := 0 }).timeoutEmits =
      1 ∧
    ¬ (((2 : Nat) + 1 : Rat) ≥ (7 / 2 : Rat)) := by
  refine ⟨?_, by decide, by decide, by norm_num⟩
  rw [Counter.make, if_neg (by norm_num), ratTruncNat_sevenHalves]

/-- Claim C5 (amended): `increment()` emits the `timeout` event exactly at
the increment on which the count reaches or exceeds the truncated integer
part of the constructor threshold (`maxCount`); in particular, for
threshold 3.5 (`maxCount` 3), no timeout is emitted after 2 increments of
a fresh counter, and the 3rd increment emits it. -/
theorem counter_truncated_threshold :
    (∀ c : Counter,
      (Counter.increment c).timeoutEmits = c.timeoutEmits + 1 ↔
        c.count + 1 ≥ c.maxCount) ∧
    Counter.make (7 / 2 : Rat) true =
      Except.ok { maxCount := 3, resetOnTimeout := true, count := 0, timeoutEmits := 0 } ∧
    (Counter.incrementN
      { maxCount := 3, resetOnTimeout := true, count := 0, timeoutEmits := 0 } 2).timeoutEmits =
      0 ∧
    (Counter.incrementN
      { maxCount := 3, resetOnTimeout := true, count := 0, timeoutEmits := 0 } 3).timeoutEmits =
      1 := by
  refine ⟨?_, ?_, by decide, by decide⟩
  · intro c
    constructor
    · intro h
      by_contra hge
      rw [Counter.increment, if_neg hge] at h
      simp at h
    · intro hge
      rw [Counter.increment, if_pos hge]
  · rw [Counter.make, if_neg (by norm_num), ratTruncNat_sevenHalves]

/-- Claim C6: for a Counter constructed with threshold 2 and
`reset_on_timeout` true, one `increment()` gives count 1, progress 1/2 and
no timeout; the second `increment()` emits `timeout` exactly once and
resets the count to 0.  With `reset_on_timeout` false the count remains at
the threshold value 2 after the emission, until an explicit `reset()`
returns it to 0 without emitting again. -/
theorem counter_threshold_two_behavior :
    Counter.make (2 : Rat) true =
      Except.ok { maxCount := 2, resetOnTimeout := true, count := 0, timeoutEmits := 0 } ∧
    (Counter.increment
      { maxCount := 2, resetOnTimeout := true, count := 0, timeoutEmits := 0 }) =
      { maxCount := 2, resetOnTimeout := true, count := 1, timeoutEmits := 0 } ∧
    Counter.progress
      { maxCount := 2, resetOnTimeout := true, count := 1, timeoutEmits := 0 } =
      (1 / 2 : Rat) ∧
    (Counter.increment
      { maxCount := 2, resetOnTimeout := true, count := 1, timeoutEmits := 0 }) =
      { maxCount := 2, resetOnTimeout := true, count := 0, timeoutEmits := 1 } ∧
    Counter.make (2 : Rat) false =
      Except.ok { maxCount := 2, resetOnTimeout := false, count := 0, timeoutEmits := 0 } ∧
    (Counter.incrementN
      { maxCount := 2, resetOnTimeout := false, count := 0, timeoutEmits := 0 } 2) =
      { maxCount := 2, resetOnTimeout := false, count := 2, timeoutEmits := 1 } ∧
    (Counter.reset
      { maxCount := 2, resetOnTimeout := false, count := 2, timeoutEmits := 1 }) =
      { maxCount := 2, resetOnTimeout := false, count := 0, timeoutEmits := 1 } := by
  refine ⟨?_, by decide, ?_, by decide, ?_, by decide, by decide⟩
  · rw [Counter.make, if_neg (by norm_num), ratTruncNat_two]
  · rw [Counter.progress]
    norm_num
  · rw [Counter.make, if_neg (by norm_num), ratTruncNat_two]

/-- Claim C7: constructing a Counter with any non-positive threshold
(zero or negative, integer or fractional) fails with an invalid-argument
error rather than producing a usable counter. -/
theorem counter_nonpositive_threshold_error (t : Rat) (r : Bool)
    (h : t ≤ 0) :
    Counter.make t r = Except.error "threshold must be positive" := by
  rw [Counter.make, if_pos h]

/-- Witness for C7 at threshold -1. -/
theorem counter_nonpositive_threshold_error_witness :
    ((-1 : Rat) ≤ 0) ∧
    Counter.make (-1 : Rat) true = Except.error "threshold must be positive" := by
  exact ⟨by norm_num,
    counter_nonpositive_threshold_error (-1 : Rat) true (by norm_num)⟩

/-- Modelled from the spec: the `axopy.timing.Timer` wall-clock countdown
is not under `src/` (only `tests/test_timing.py` exercises it).  Per
section 5 of the spec the countdown is driven by an external scheduler in
a single-threaded event loop; the scheduler's expiry callback is the
`fire` action below, which emits `timeout` only if the countdown is still
running. -/
structure Timer where
  duration : Rat
  running : Bool
  timeoutEmits : Nat
deriving DecidableEq

/-- Modelled from the spec: a freshly constructed `Timer(duration)` is not
running and has emitted nothing. -/
def Timer.new (d : Rat) : Timer :=
  { duration := d, running := false, timeoutEmits := 0 }

/-- Modelled from the spec: `start()` begins (or restarts) the countdown. -/
def Timer.start (t : Timer) : Timer :=
  { t with running := true }

/-- Modelled from the spec: `stop()` cancels a pending countdown before it
fires, suppressing the emission entirely. -/
def Timer.stop (t : Timer) : Timer :=
  { t with running := false }

/-- Modelled from the spec: the scheduler's expiry callback; emits
`timeout` on the bus only when the countdown is still running. -/
def Timer.fire (t : Timer) : Timer :=
  if t.running then
    { t with running := false, timeoutEmits := t.timeoutEmits + 1 }
  else
    t

/-- An event applied to the timer by its owner or the scheduler. -/
inductive TAct
  | startAct
  | stopAct
  | fireAct
deriving DecidableEq

/-- Apply one timer event. -/
def Timer.stepAct (t : Timer) : TAct → Timer
  | TAct.startAct => Timer.start t
  | TAct.stopAct => Timer.stop t
  | TAct.fireAct => Timer.fire t

/-- Apply a list of timer events in order. -/
def Timer.runActs (t : Timer) (acts : List TAct) : Timer :=
  acts.foldl Timer.stepAct t

theorem Timer.stopped_stable (acts : List TAct) :
    ∀ t : Timer, t.running = false → TAct.startAct ∉ acts →
      Timer.runActs t acts = t := by
  induction acts with
  | nil => intro t _ _; rfl
  | cons a rest ih =>
    intro t hrun hmem
    have hne : a ≠ TAct.startAct := fun h => hmem (h ▸ List.mem_cons_self a rest)
    have hrest : TAct.startAct ∉ rest := fun h => hmem (List.mem_cons_of_mem a h)
    cases a with
    | startAct => exact absurd rfl hne
    | stopAct =>
      have hstop : Timer.stop t = t := by
        cases t with
        | mk d r e =>
          simp only [Timer.stop]
          simp only at hrun
          rw [hrun]
      simpa [Timer.runActs, Timer.stepAct, hstop] using ih t hrun hrest
    | fireAct =>
      have hfire : Timer.fire t = t := by
        rw [Timer.fire, if_neg (by rw [hrun]; exact Bool.false_ne_true)]
      simpa [Timer.runActs, Timer.stepAct, hfire] using ih t hrun hrest

/-- Claim C8: once `stop()` is called on the countdown, no later scheduler
expiry (`fire`) can emit `timeout` for that start cycle: after `stop`, any
sequence of events that does not contain a new `start` leaves the emission
count exactly where it was. -/
theorem timer_stop_suppresses_timeout (tm : Timer) (acts : List TAct)
    (h : TAct.startAct ∉ acts) :
    (Timer.runActs (Timer.stop tm) acts).timeoutEmits = tm.timeoutEmits := by
  rw [Timer.stopped_stable acts (Timer.stop tm) rfl h]
  rfl

/-- Witness for C8: a started `Timer(0.1)` that is stopped and then
receives the pending expiry callback emits nothing. -/
theorem timer_stop_suppresses_timeout_witness :
    TAct.startAct ∉ [TAct.fireAct] ∧
    (Timer.runActs (Timer.stop (Timer.start (Timer.new (1 / 10 : Rat))))
      [TAct.fireAct]).timeoutEmits = 0 := by
  exact ⟨by decide,
    (timer_stop_suppresses_timeout (Timer.start (Timer.new (1 / 10 : Rat)))
      [TAct.fireAct] (by decide)).trans rfl⟩

/-- Lifecycle state of the Task controller, per section 4.4 of the spec. -/
inductive TaskState
  | prepared
  | running
  | finished
deriving DecidableEq

/-- Modelled from the spec: the `axopy.task.Task` controller is not under
`src/` (only `tests/test_task.py` exercises it).  It owns one Sequence
Iterator, a tagged lifecycle state, the current block, an explicit
optional current trial (absent before the first advance), the configured
advance-trial key, and a count of `finished` emissions on the bus. -/
structure TaskCtl where
  iter : TaskIter
  tstate : TaskState
  block : Option Block
  trial : Option Trial
  advanceTrialKey : Nat
  finishedEmits : Nat
deriving DecidableEq

/-- Modelled from the spec: construction yields a controller holding an
empty Sequence Iterator, not yet running, with no current trial. -/
def TaskCtl.new (key : Nat) : TaskCtl :=
  { iter := TaskIter.init none
    tstate := TaskState.prepared
    block := none
    trial := none
    advanceTrialKey := key
    finishedEmits := 0 }

/-- Modelled from the spec: `design(schedule)` populates the schedule
before running. -/
def TaskCtl.design (tk : TaskCtl) (d : Design) : TaskCtl :=
  { tk with iter := TaskIter.init (some d) }

/-- Modelled from the spec: `run()` transitions to running, obtains the
first block via `next_block()`, and enters advance-wait without yet
selecting a trial. -/
def TaskCtl.run (tk : TaskCtl) : TaskCtl :=
  { tk with
      iter := (TaskIter.nextBlock tk.iter).2
      block := (TaskIter.nextBlock tk.iter).1
      tstate := TaskState.running }

/-- Modelled from the spec: block advancement shared by the key-driven and
programmatic paths: obtain the next block via `next_block()` and begin its
first trial; if `next_block()` returns the termination sentinel instead,
emit the `finished` event and transition to the terminal state. -/
def TaskCtl.advanceBlock (tk : TaskCtl) : TaskCtl :=
  match (TaskIter.nextBlock tk.iter).1 with
  | some b =>
    { tk with
        iter := (TaskIter.nextTrial (TaskIter.nextBlock tk.iter).2).2
        block := some b
        trial := (TaskIter.nextTrial (TaskIter.nextBlock tk.iter).2).1 }
  | none =>
    { tk with
        iter := (TaskIter.nextBlock tk.iter).2
        tstate := TaskState.finished
        finishedEmits := tk.finishedEmits + 1 }

/-- Modelled from the spec: controller-level `next_trial()`: advance to
the next trial within the current block; on the trial sentinel, advance to
the next block (possibly finishing).  A no-op in the terminal state. -/
def TaskCtl.nextTrial (tk : TaskCtl) : TaskCtl :=
  if tk.tstate = TaskState.finished then tk
  else
    match (TaskIter.nextTrial tk.iter).1 with
    | some t => { tk with iter := (TaskIter.nextTrial tk.iter).2, trial := some t }
    | none => TaskCtl.advanceBlock { tk with iter := (TaskIter.nextTrial tk.iter).2 }

/-- Modelled from the spec: controller-level `next_block()`, the same
logic as the key-driven path.  A no-op in the terminal state. -/
def TaskCtl.nextBlock (tk : TaskCtl) : TaskCtl :=
  if tk.tstate = TaskState.finished then tk
  else TaskCtl.advanceBlock tk

/-- Modelled from the spec: `key_press(key)`: a matching advance-trial key
drives the same transition logic as programmatic `next_trial()`; any other
key is ignored.  A no-op in the terminal state. -/
def TaskCtl.keyPress (tk : TaskCtl) (k : Nat) : TaskCtl :=
  if tk.tstate = TaskState.finished then tk
  else if k = tk.advanceTrialKey then TaskCtl.nextTrial tk
  else tk

/-- An advancement call on the controller. -/
inductive AdvOp
  | keyPressOp (k : Nat)
  | nextTrialOp
  | nextBlockOp
deriving DecidableEq

/-- Apply one advancement call. -/
def TaskCtl.applyAdv (tk : TaskCtl) : AdvOp → TaskCtl
  | AdvOp.keyPressOp k => TaskCtl.keyPress tk k
  | AdvOp.nextTrialOp => TaskCtl.nextTrial tk
  | AdvOp.nextBlockOp => TaskCtl.nextBlock tk

/-- Apply a list of advancement calls in order. -/
def TaskCtl.applyAdvs (tk : TaskCtl) (ops : List AdvOp) : TaskCtl :=
  ops.foldl TaskCtl.applyAdv tk

theorem TaskCtl.finished_applyAdv (tk : TaskCtl)
    (h : tk.tstate = TaskState.finished) (op : AdvOp) :
    TaskCtl.applyAdv tk op = tk := by
  cases op with
  | keyPressOp k => rw [TaskCtl.applyAdv, TaskCtl.keyPress, if_pos h]
  | nextTrialOp => rw [TaskCtl.applyAdv, TaskCtl.nextTrial, if_pos h]
  | nextBlockOp => rw [TaskCtl.applyAdv, TaskCtl.nextBlock, if_pos h]

theorem TaskCtl.finished_applyAdvs (ops : List AdvOp) (tk : TaskCtl)
    (h : tk.tstate = TaskState.finished) :
    TaskCtl.applyAdvs tk ops = tk := by
  induction ops with
  | nil => rfl
  | cons op rest ih =>
    rw [TaskCtl.applyAdvs, List.foldl_cons, TaskCtl.finished_applyAdv tk h op]
    exact ih

/-- Claim C2: when advancement reaches the end of the schedule (the
iterator's `next_trial` returns the sentinel and `next_block` on the
resulting state also returns the sentinel), the controller's `next_trial`
call emits the `finished` event exactly once (the emission count rises by
exactly one), transitions to the terminal finished state, and every
subsequent sequence of advancement calls (`key_press`, `next_trial`,
`next_block`) is a no-op: the state, and with it the emission count, never
changes again. -/
theorem task_finished_terminal (tk : TaskCtl)
    (hrun : tk.tstate = TaskState.running)
    (htrial : (TaskIter.nextTrial tk.iter).1 = none)
    (hblock : (TaskIter.nextBlock (TaskIter.nextTrial tk.iter).2).1 = none) :
    (TaskCtl.nextTrial tk).finishedEmits = tk.finishedEmits + 1 ∧
    (TaskCtl.nextTrial tk).tstate = TaskState.finished ∧
    (∀ ops : List AdvOp, TaskCtl.applyAdvs (TaskCtl.nextTrial tk) ops = TaskCtl.nextTrial tk) := by
  have hne : ¬ tk.tstate = TaskState.finished := by
    rw [hrun]
    intro h
    exact TaskState.noConfusion h
  have hstep : TaskCtl.nextTrial tk =
      { tk with
          iter := (TaskIter.nextBlock (TaskIter.nextTrial tk.iter).2).2
          tstate := TaskState.finished
          finishedEmits := tk.finishedEmits + 1 } := by
    rw [TaskCtl.nextTrial, if_neg hne, htrial]
    rw [TaskCtl.advanceBlock]
    simp only [hblock]
  refine ⟨by rw [hstep], by rw [hstep], ?_⟩
  intro ops
  exact TaskCtl.finished_applyAdvs ops (TaskCtl.nextTrial tk) (by rw [hstep])

/-- Witness for C2: a running controller whose iterator is exhausted;
the finishing `next_trial` emits once, and further calls change nothing. -/
theorem task_finished_terminal_witness :
    ((⟨⟨[], []⟩, TaskState.running, some [], none, 1, 0⟩ : TaskCtl).tstate =
      TaskState.running) ∧
    (TaskCtl.nextTrial ⟨⟨[], []⟩, TaskState.running, some [], none, 1, 0⟩).finishedEmits = 1 ∧
    (TaskCtl.nextTrial ⟨⟨[], []⟩, TaskState.running, some [], none, 1, 0⟩).tstate =
      TaskState.finished ∧
    TaskCtl.applyAdvs (TaskCtl.nextTrial ⟨⟨[], []⟩, TaskState.running, some [], none, 1, 0⟩)
      [AdvOp.nextTrialOp, AdvOp.nextBlockOp, AdvOp.keyPressOp 1] =
      TaskCtl.nextTrial ⟨⟨[], []⟩, TaskState.running, some [], none, 1, 0⟩ := by
  have h := task_finished_terminal
    (⟨⟨[], []⟩, TaskState.running, some [], none, 1, 0⟩ : TaskCtl) rfl rfl rfl
  exact ⟨rfl, h.1, h.2.1, h.2.2 [AdvOp.nextTrialOp, AdvOp.nextBlockOp, AdvOp.keyPressOp 1]⟩

/-- The weights argument of `MAV.__init__`: either a string naming a
weighting scheme or a user-supplied 1-D array (Python passes one of a
string or a numpy array). -/
inductive Weights
  | strW (s : String)
  | arrW (w : List Rat)
deriving DecidableEq

/-- A Python error raised by `MAV.compute`: a `ValueError` with its
message, or the `AttributeError` raised when `self._w` is read before
`_init_weights` has ever run. -/
inductive MAVErr
  | valueError (msg : String)
  | attributeError
deriving DecidableEq

/-- Embedding of `MAV` state (`hcibench/features/time.py`): `__init__`
stores `self.weights` and `self._n = 0`; `self._w` does not exist until
`_init_weights` assigns it, so it is an explicit option. -/
structure MAV where
  weights : Weights
  n : Nat
  w : Option (List Rat)
deriving DecidableEq

/-- `MAV.__init__(weights)`. -/
def MAV.init (ws : Weights) : MAV :=
  { weights := ws, n := 0, w := none }

/-- The `'mav1'` branch of `_init_weights`: `0.5 * np.ones(n)` with the
slice `int(0.25*n) : int(0.75*n)` set to 1. -/
def mav1Weights (n : Nat) : List Rat :=
  (List.range n).map (fun i => if n / 4 ≤ i ∧ i < 3 * n / 4 then 1 else 1 / 2)

/-- The `'mav2'` branch of `_init_weights`: `np.ones(n)` with indices
below `int(0.25*n)` set to `4*i/n` and indices from `int(0.75*n)` set to
`4*(n-i)/n`. -/
def mav2Weights (n : Nat) : List Rat :=
  (List.range n).map (fun i =>
    if i < n / 4 then 4 * (i : Rat) / (n : Rat)
    else if 3 * n / 4 ≤ i then 4 * ((n : Rat) - (i : Rat)) / (n : Rat)
    else 1)

/-- `MAV._init_weights` (`hcibench/features/time.py` lines 60-82): the
`if`/`elif` chain on `self.weights`, raising `ValueError` for a
length-mismatched custom array and for an unrecognized weights value. -/
def MAV.initWeights (m : MAV) : Except MAVErr MAV :=
  match m.weights with
  | Weights.strW s =>
    if s = "mav" then Except.ok { m with w := some (List.replicate m.n (1 : Rat)) }
    else if s = "mav1" then Except.ok { m with w := some (mav1Weights m.n) }
    else if s = "mav2" then Except.ok { m with w := some (mav2Weights m.n) }
    else Except.error (MAVErr.valueError
      "Weights not recognized: should be mav, mav1, mav2, or a numpy array.")
  | Weights.arrW wa =>
    if wa.length ≠ m.n then
      Except.error (MAVErr.valueError
        "Number of weights in custom window function does not match input size.")
    else Except.ok { m with w := some wa }

/-- `x.shape[1]` of a 2-D input held as a list of equal-length rows. -/
def shape1 (x : List (List Rat)) : Nat :=
  match x with
  | [] => 0
  | r :: _ => r.length

/-- `np.mean` of a 1-D array. -/
def listMean (l : List Rat) : Rat :=
  l.sum / (l.length : Rat)

/-- `MAV.compute` (`hcibench/features/time.py` lines 50-58): `ensure_2d`
is the identity on 2-D input; if the column count differs from `self._n`,
store it and run `_init_weights`; then `np.mean(self._w * np.absolute(x),
axis=1)` — reading `self._w` raises `AttributeError` when it was never
assigned. -/
def MAV.compute (m : MAV) (x : List (List Rat)) : Except MAVErr (MAV × List Rat) :=
  let nCols := shape1 x
  let step : Except MAVErr MAV :=
    if nCols ≠ m.n then MAV.initWeights { m with n := nCols } else Except.ok m
  match step with
  | Except.error e => Except.error e
  | Except.ok m1 =>
    match m1.w with
    | none => Except.error MAVErr.attributeError
    | some wl =>
      Except.ok (m1, x.map (fun r => listMean (List.zipWith (fun wi xi => wi * |xi|) wl r)))

/-- Whether a `compute` result is a raised `ValueError`. -/
def raisesValueError (r : Except MAVErr (MAV × List Rat)) : Bool :=
  match r with
  | Except.error (MAVErr.valueError _) => true
  | _ => false

/-- Claim C9 counterexample: for `MAV` constructed with the unrecognized
weights value `"foo"`, the first `compute` call on the 2-D input `[[]]`
(one row, zero columns) does not raise `ValueError`: since
`x.shape[1] == 0 == self._n`, `_init_weights` is skipped and reading the
never-assigned `self._w` raises `AttributeError` instead. -/
theorem mav_value_error_claim_refuted :
    MAV.compute (MAV.init (Weights.strW "foo")) [[]] =
      Except.error MAVErr.attributeError ∧
    raisesValueError (MAV.compute (MAV.init (Weights.strW "foo")) [[]]) = false := by
  exact ⟨rfl, rfl⟩

/-- Claim C9 (amended): if `MAV` is constructed with a string weights
argument that is none of the recognized values `'mav'`, `'mav1'`,
`'mav2'`, then the first `compute(x)` call on any input with at least one
column raises a `ValueError` rather than silently substituting a default
weighting. -/
theorem mav_unrecognized_weights_value_error (s : String) (x : List (List Rat))
    (h1 : s ≠ "mav") (h2 : s ≠ "mav1") (h3 : s ≠ "mav2")
    (h0 : shape1 x ≠ 0) :
    raisesValueError (MAV.compute (MAV.init (Weights.strW s)) x) = true := by
  rw [MAV.compute]
  simp only [MAV.init, if_pos h0]
  rw [MAV.initWeights]
  simp only [if_neg h1, if_neg h2, if_neg h3]
  rfl

/-- Witness for C9 (amended) at weights `"foo"` and input `[[1]]`. -/
theorem mav_unrecognized_weights_value_error_witness :
    (("foo" : String) ≠ "mav" ∧ ("foo" : String) ≠ "mav1" ∧
      ("foo" : String) ≠ "mav2" ∧ shape1 [[(1 : Rat)]] ≠ 0) ∧
    raisesValueError (MAV.compute (MAV.init (Weights.strW "foo")) [[(1 : Rat)]]) = true := by
  exact ⟨⟨by decide, by decide, by decide, by decide⟩,
    mav_unrecognized_weights_value_error "foo" [[(1 : Rat)]]
      (by decide) (by decide) (by decide) (by decide)⟩

/-- `np.signbit` on exact rationals: true when the value is negative. -/
def signbit (q : Rat) : Bool :=
  decide (q < 0)

/-- `np.diff` along a row: differences of adjacent samples. -/
def adjDiff (r : List Rat) : List Rat :=
  List.zipWith (fun a b => b - a) r r.tail

/-- `np.diff` on a boolean array, computed as inequality of adjacent
entries. -/
def boolDiff (l : List Bool) : List Bool :=
  List.zipWith (fun a b => a != b) l l.tail

/-- One row of `ZC.compute` (`hcibench/features/time.py` lines 123-135):
`np.sum(np.logical_and(np.diff(np.signbit(x)), np.absolute(np.diff(x)) >
threshold))` for that row. -/
def zcRow (threshold : Rat) (r : List Rat) : Nat :=
  (List.zipWith (fun c d => c && decide (d > threshold))
    (boolDiff (r.map signbit))
    ((adjDiff r).map (fun d => |d|))).count true

/-- `ZC.compute` on a 2-D input: the per-row zero-crossing counts. -/
def ZC.compute (threshold : Rat) (x : List (List Rat)) : List Nat :=
  x.map (zcRow threshold)

/-- Specification-style count: the number of adjacent sample pairs whose
sign bits differ and whose absolute difference strictly exceeds the
threshold. -/
def zcSpecCount (threshold : Rat) : List Rat → Nat
  | a :: b :: rest =>
    (if signbit a ≠ signbit b ∧ threshold < |b - a| then 1 else 0) +
      zcSpecCount threshold (b :: rest)
  | _ => 0

theorem zcRow_eq_spec (threshold : Rat) :
    ∀ r : List Rat, zcRow threshold r = zcSpecCount threshold r
  | [] => by
    rfl
  | [a] => by
    rfl
  | a :: b :: rest => by
    have ih := zcRow_eq_spec threshold (b :: rest)
    rw [zcSpecCount, ← ih]
    rw [zcRow, zcRow, boolDiff, boolDiff, adjDiff, adjDiff]
    simp only [List.map_cons, List.tail_cons, List.zipWith_cons_cons,
      List.count_cons, beq_iff_eq]
    rw [Nat.add_comm]
    congr 1
    refine if_congr ?_ rfl rfl
    simp [bne_iff_ne]

/-- Claim C10: for every 2-D input and every threshold `t ≥ 0`,
`ZC.compute` returns per row the number of adjacent sample pairs whose
sign bits differ and whose absolute difference strictly exceeds `t`; and
with the default threshold 0, an adjacent pair whose difference is exactly
0 contributes nothing to the count (the magnitude conjunct `|0| > 0`
fails), so such a pair is never counted as a zero crossing. -/
theorem zc_compute_spec (t : Rat) (x : List (List Rat)) (ht : 0 ≤ t) :
    ZC.compute t x = x.map (zcSpecCount t) ∧
    (∀ (a b : Rat) (rest : List Rat), b - a = 0 →
      zcSpecCount 0 (a :: b :: rest) = zcSpecCount 0 (b :: rest)) := by
  constructor
  · rw [ZC.compute]
    exact List.map_congr_left (fun r _ => zcRow_eq_spec t r)
  · intro a b rest hdiff
    rw [zcSpecCount, if_neg, Nat.zero_add]
    intro hc
    have habs : |b - a| = 0 := by rw [hdiff, abs_zero]
    rw [habs] at hc
    exact lt_irrefl 0 hc.2

/-- Witness for C10 at threshold 0 and the row `[1, -1, 2]`, which has two
zero crossings. -/
theorem zc_compute_spec_witness :
    ((0 : Rat) ≤ 0) ∧
    ZC.compute 0 [[(1 : Rat), -1, 2]] = [[(1 : Rat), -1, 2]].map (zcSpecCount 0) ∧
    [[(1 : Rat), -1, 2]].map (zcSpecCount 0) = [2] := by
  refine ⟨le_refl 0, (zc_compute_spec 0 [[(1 : Rat), -1, 2]] (le_refl 0)).1, ?_⟩
  simp only [List.map_cons, List.map_nil, zcSpecCount]
  norm_num [signbit, abs]
